import Mathlib

/-!
Verification development for the Binance MCP stdio server
(`binance_mcp_server.py`).  The Python source is shallowly embedded:

* JSON values (what `json.loads` produces and what the Python code passes
  around) become the inductive type `JVal`; Python `None` and JSON `null`
  are both `JVal.null`, exactly as in CPython where they are one object.
* Exceptions become `Except PyErr`; each `raise` site in the source is an
  `.error` value, and the `try/except` in `StdioMCPServer._dispatch` is the
  one place an `.error` is converted back into a normal value.
* `time.time() * 1000`, `os.environ`, the HTTP transport
  (`urllib.request.urlopen`), `json.loads` and `bytes.decode` are external
  effects; they are supplied through the `World` structure as oracles.
* `hmac.new(secret, query, hashlib.sha256).hexdigest()` is implemented
  bit-exactly (SHA-256 and HMAC over byte lists, digits rendered in
  lowercase hex) so signing is fully executable.
* Machine integers do not occur: Python ints are unbounded, and the SHA-256
  arithmetic is over `Nat` with explicit `% 2^32`.
-/

set_option maxRecDepth 100000

namespace BinanceMCP

/-- JSON value as produced by `json.loads`, also used for every Python value
the server passes around.  Python `None` is `null`; numbers are modelled as
integers (no operation in the source depends on float formatting). -/
inductive JVal where
  | null
  | bool (b : Bool)
  | num (n : Int)
  | str (s : String)
  | arr (xs : List JVal)
  | obj (kvs : List (String × JVal))

/-- Python truthiness (`bool(v)`) for the modelled values. -/
def truthyJ : JVal → Bool
  | .null => false
  | .bool b => b
  | .num n => n != 0
  | .str s => s != ""
  | .arr xs => !xs.isEmpty
  | .obj kvs => !kvs.isEmpty

/-- Python `v is None` test. -/
def isNull : JVal → Bool
  | .null => true
  | _ => false

/-- Python `a or b`. -/
def pyOr (a b : JVal) : JVal := if truthyJ a then a else b

/-- Python `v == "s"` where `v` is an arbitrary value and `"s"` a string
literal (used for the method-dispatch chain). -/
def jeqStr (v : JVal) (s : String) : Bool :=
  match v with
  | .str t => t == s
  | _ => false

/-- Python `str(v)` for the values reaching `urlencode` and f-strings in the
source.  The `repr` of containers is not needed on any modelled path and is
rendered as a placeholder. -/
def pyStr : JVal → String
  | .null => "None"
  | .bool b => if b then "True" else "False"
  | .num n => toString n
  | .str s => s
  | .arr _ => "[unmodelled list repr]"
  | .obj _ => "[unmodelled dict repr]"

/-- Python `d.get(k, default)` on a dict rendered as an association list
(keys unique, insertion-ordered, as in a dict built by `json.loads`). -/
def dgetD (kvs : List (String × JVal)) (k : String) (d : JVal) : JVal :=
  match kvs.find? (fun kv => kv.1 == k) with
  | some kv => kv.2
  | none => d

/-- Python `d.get(k)` (default `None`). -/
def dget (kvs : List (String × JVal)) (k : String) : JVal := dgetD kvs k .null

/-- Python `d[k] = v` on an insertion-ordered dict: overwrite in place when
the key exists, append otherwise. -/
def setKey : List (String × JVal) → String → JVal → List (String × JVal)
  | [], k, v => [(k, v)]
  | (k', v') :: rest, k, v =>
    if k' = k then (k, v) :: rest else (k', v') :: setKey rest k v

/-- Characters stripped by Python `str.strip()` with no argument. -/
def pyWhitespace : List Char := [' ', '\t', '\n', '\r', '\x0b', '\x0c']

/-- Python `s.strip()`. -/
def pyStrip (s : String) : String :=
  String.mk (((s.data.dropWhile (· ∈ pyWhitespace)).reverse.dropWhile
    (· ∈ pyWhitespace)).reverse)

/-- Python `s.rstrip("/")`. -/
def pyRstripSlash (s : String) : String :=
  String.mk ((s.data.reverse.dropWhile (· = '/')).reverse)

/-- Python `s.upper()` (all strings in play are ASCII). -/
def pyUpper (s : String) : String := String.mk (s.data.map Char.toUpper)

/-- Python `needle in hay` on strings. -/
def strContains (hay needle : String) : Bool :=
  (List.range (hay.data.length + 1)).any
    (fun i => needle.data.isPrefixOf (hay.data.drop i))

/-- UTF-8 encoding of one scalar value (Python `str.encode("utf-8")`,
per character). -/
def utf8Char (c : Char) : List Nat :=
  let n := c.toNat
  if n < 128 then [n]
  else if n < 2048 then [192 + n / 64, 128 + n % 64]
  else if n < 65536 then [224 + n / 4096, 128 + (n / 64) % 64, 128 + n % 64]
  else [240 + n / 262144, 128 + (n / 4096) % 64, 128 + (n / 64) % 64,
        128 + n % 64]

/-- Python `s.encode("utf-8")` as a list of byte values. -/
def strBytes (s : String) : List Nat := s.data.flatMap utf8Char

/-- Lowercase hex digits, used by `hexdigest`. -/
def lowerHexChars : List Char := "0123456789abcdef".data

/-- Uppercase hex digits, used by percent-encoding. -/
def upperHexChars : List Char := "0123456789ABCDEF".data

/-- Bytes never percent-encoded by `urllib.parse.quote` (its always-safe
set: ASCII letters, digits, `_.-~`). -/
def alwaysSafeBytes : List Nat := strBytes
  "ABCDEFGHIJKLMNOPQRSTUVWXYZabcdefghijklmnopqrstuvwxyz0123456789_.-~"

/-- Encoding of one byte under `urllib.parse.quote_plus` with `safe=''`:
safe bytes pass through, space becomes `+`, everything else becomes
`%XX` with uppercase hex. -/
def quoteByte (b : Nat) : List Char :=
  if b ∈ alwaysSafeBytes then [Char.ofNat b]
  else if b = 32 then ['+']
  else ['%', upperHexChars.getD (b / 16 % 16) '0', upperHexChars.getD (b % 16) '0']

/-- Python `urllib.parse.quote_plus(s)` (the default `quote_via` of
`urlencode`). -/
def quotePlus (s : String) : String := String.mk ((strBytes s).flatMap quoteByte)

/-- The `key=value` pieces contributed by one dict entry under
`urllib.parse.urlencode(..., doseq=True)`: a list yields one piece per
element, a dict iterates its keys, a scalar yields one piece with `str(v)`. -/
def urlencodeEntry (k : String) (v : JVal) : List String :=
  match v with
  | .arr xs => xs.map (fun e => quotePlus k ++ "=" ++ quotePlus (pyStr e))
  | .obj kvs => kvs.map (fun e => quotePlus k ++ "=" ++ quotePlus e.1)
  | v => [quotePlus k ++ "=" ++ quotePlus (pyStr v)]

/-- Python `"&".join l`. -/
def joinAmp : List String → String
  | [] => ""
  | [x] => x
  | x :: xs => x ++ "&" ++ joinAmp xs

/-- Python `urllib.parse.urlencode(params, doseq=True)` over an
insertion-ordered dict. -/
def urlencode (ps : List (String × JVal)) : String :=
  joinAmp (ps.flatMap (fun kv => urlencodeEntry kv.1 kv.2))

/-! SHA-256 (FIPS 180-4) over byte lists, with 32-bit words as `Nat` reduced
explicitly modulo `2^32`.  This is the `hashlib.sha256` the source hands to
`hmac.new`. -/

/-- The 32-bit modulus. -/
def m32 : Nat := 4294967296

/-- Rotate a 32-bit word right by `k`. -/
def rotr (k x : Nat) : Nat := ((x >>> k) ||| (x <<< (32 - k))) % m32

/-- Bitwise complement of a 32-bit word. -/
def not32 (x : Nat) : Nat := x ^^^ 4294967295

/-- SHA-256 `Ch` function. -/
def shaCh (e f g : Nat) : Nat := (e &&& f) ^^^ (not32 e &&& g)

/-- SHA-256 `Maj` function. -/
def shaMaj (a b c : Nat) : Nat := (a &&& b) ^^^ (a &&& c) ^^^ (b &&& c)

/-- SHA-256 `Σ0`. -/
def bigSigma0 (x : Nat) : Nat := rotr 2 x ^^^ rotr 13 x ^^^ rotr 22 x

/-- SHA-256 `Σ1`. -/
def bigSigma1 (x : Nat) : Nat := rotr 6 x ^^^ rotr 11 x ^^^ rotr 25 x

/-- SHA-256 `σ0`. -/
def smallSigma0 (x : Nat) : Nat := rotr 7 x ^^^ rotr 18 x ^^^ (x >>> 3)

/-- SHA-256 `σ1`. -/
def smallSigma1 (x : Nat) : Nat := rotr 17 x ^^^ rotr 19 x ^^^ (x >>> 10)

/-- The 64 SHA-256 round constants. -/
def sha256K : List Nat :=
  [1116352408, 1899447441, 3049323471, 3921009573, 961987163,
   1508970993, 2453635748, 2870763221, 3624381080, 310598401,
   607225278, 1426881987, 1925078388, 2162078206, 2614888103,
   3248222580, 3835390401, 4022224774, 264347078, 604807628,
   770255983, 1249150122, 1555081692, 1996064986, 2554220882,
   2821834349, 2952996808, 3210313671, 3336571891, 3584528711,
   113926993, 338241895, 666307205, 773529912, 1294757372,
   1396182291, 1695183700, 1986661051, 2177026350, 2456956037,
   2730485921, 2820302411, 3259730800, 3345764771, 3516065817,
   3600352804, 4094571909, 275423344, 430227734, 506948616,
   659060556, 883997877, 958139571, 1322822218, 1537002063,
   1747873779, 1955562222, 2024104815, 2227730452, 2361852424,
   2428436474, 2756734187, 3204031479, 3329325298]

/-- Working state of the compression function: eight 32-bit words. -/
structure Sha256St where
  a : Nat
  b : Nat
  c : Nat
  d : Nat
  e : Nat
  f : Nat
  g : Nat
  h : Nat

/-- SHA-256 initial hash value. -/
def sha256Init : Sha256St :=
  ⟨1779033703, 3144134277, 1013904242, 2773480762,
   1359893119, 2600822924, 528734635, 1541459225⟩

/-- One compression round for a pair of round constant and schedule word. -/
def shaRound (st : Sha256St) (kw : Nat × Nat) : Sha256St :=
  let t1 := (st.h + bigSigma1 st.e + shaCh st.e st.f st.g + kw.1 + kw.2) % m32
  let t2 := (bigSigma0 st.a + shaMaj st.a st.b st.c) % m32
  { a := (t1 + t2) % m32, b := st.a, c := st.b, d := st.c,
    e := (st.d + t1) % m32, f := st.e, g := st.f, h := st.g }

/-- Split a byte list into chunks of size `n`, structurally recursive on a
fuel bound so the kernel can evaluate it (the fuel `l.length` suffices for
every positive `n`). -/
def chunksOfFuel (n : Nat) : Nat → List Nat → List (List Nat)
  | _, [] => []
  | 0, _ => []
  | fuel + 1, l => l.take n :: chunksOfFuel n fuel (l.drop n)

/-- Split a byte list into chunks of size `n`. -/
def chunksOf (n : Nat) (l : List Nat) : List (List Nat) :=
  chunksOfFuel n l.length l

/-- Big-endian bytes of a 32-bit word. -/
def be32 (n : Nat) : List Nat :=
  [n / 16777216 % 256, n / 65536 % 256, n / 256 % 256, n % 256]

/-- Big-endian bytes of a 64-bit value. -/
def be64 (n : Nat) : List Nat :=
  [n / 72057594037927936 % 256, n / 281474976710656 % 256,
   n / 1099511627776 % 256, n / 4294967296 % 256,
   n / 16777216 % 256, n / 65536 % 256, n / 256 % 256, n % 256]

/-- 32-bit words of a 64-byte block, big-endian. -/
def wordsOfBytes (block : List Nat) : List Nat :=
  (chunksOf 4 block).map (fun c => c.foldl (fun acc b => acc * 256 + b) 0)

/-- Next word of the message schedule, from the words produced so far. -/
def schedNext (w : List Nat) : Nat :=
  let n := w.length
  (smallSigma1 (w.getD (n - 2) 0) + w.getD (n - 7) 0 +
   smallSigma0 (w.getD (n - 15) 0) + w.getD (n - 16) 0) % m32

/-- Extend the 16 block words to the 64-word message schedule. -/
def sched (w0 : List Nat) : List Nat :=
  (List.range 48).foldl (fun w _ => w ++ [schedNext w]) w0

/-- Compress one 64-byte block into the running hash state. -/
def compressBlock (st : Sha256St) (block : List Nat) : Sha256St :=
  let w := sched (wordsOfBytes block)
  let t := (sha256K.zip w).foldl shaRound st
  { a := (st.a + t.a) % m32, b := (st.b + t.b) % m32, c := (st.c + t.c) % m32,
    d := (st.d + t.d) % m32, e := (st.e + t.e) % m32, f := (st.f + t.f) % m32,
    g := (st.g + t.g) % m32, h := (st.h + t.h) % m32 }

/-- SHA-256 padding: `0x80`, zeros to 56 mod 64, then the bit length as a
big-endian 64-bit value. -/
def padMsg (msg : List Nat) : List Nat :=
  msg ++ 128 :: List.replicate ((119 - msg.length % 64) % 64) 0 ++
    be64 (8 * msg.length)

/-- Digest bytes of a final hash state. -/
def digestBytes (st : Sha256St) : List Nat :=
  be32 st.a ++ be32 st.b ++ be32 st.c ++ be32 st.d ++ be32 st.e ++ be32 st.f ++
    be32 st.g ++ be32 st.h

/-- SHA-256 of a byte list. -/
def sha256 (msg : List Nat) : List Nat :=
  digestBytes ((chunksOf 64 (padMsg msg)).foldl compressBlock sha256Init)

/-- HMAC-SHA256 (RFC 2104) of a message under a key, both byte lists.  This
is `hmac.new(key, msg, hashlib.sha256).digest()`. -/
def hmacSha256 (key msg : List Nat) : List Nat :=
  let k0 := if 64 < key.length then sha256 key else key
  let k := k0 ++ List.replicate (64 - k0.length) 0
  sha256 ((k.map (fun b => b ^^^ 92)) ++
    sha256 ((k.map (fun b => b ^^^ 54)) ++ msg))

/-- Python `.hexdigest()` rendering: each byte as two lowercase hex digits. -/
def hexdigest (bytes : List Nat) : String :=
  String.mk (bytes.flatMap
    (fun b => [lowerHexChars.getD (b / 16 % 16) '0', lowerHexChars.getD (b % 16) '0']))

/-- The signature string the source computes:
`hmac.new(secret.encode(), query.encode(), hashlib.sha256).hexdigest()`. -/
def hmacSha256Hex (key msg : List Nat) : String := hexdigest (hmacSha256 key msg)

/-! The client (`BinanceClient`) and the server (`StdioMCPServer`). -/

/-- A raised Python exception, as observed by the `except` handlers in the
source: `ValueError(msg)`, `RuntimeError(payload_dict)` from `_request`,
`AttributeError` from calling a method on a value lacking it, and a
`json.JSONDecodeError` escaping `json.loads` outside `serve`. -/
inductive PyErr where
  | valueError (msg : String)
  | runtimeError (payload : JVal)
  | attributeError (msg : String)
  | jsonError (msg : String)

/-- The `exc.args[0] if exc.args else str(exc)` payload `_dispatch` puts in
the error envelope. -/
def PyErr.payload : PyErr → JVal
  | .valueError msg => .str msg
  | .runtimeError p => p
  | .attributeError msg => .str msg
  | .jsonError msg => .str msg

/-- Python `v.upper()`: only strings have `upper`. -/
def jvalUpper : JVal → Except PyErr String
  | .str s => .ok (pyUpper s)
  | _ => .error (.attributeError "object has no attribute upper")

/-- Python `v.rstrip("/")`: only strings have `rstrip`. -/
def jvalRstripSlash : JVal → Except PyErr String
  | .str s => .ok (pyRstripSlash s)
  | _ => .error (.attributeError "object has no attribute rstrip")

/-- Python `v.get(k)`: only dicts have `get`. -/
def jget (v : JVal) (k : String) : Except PyErr JVal :=
  match v with
  | .obj kvs => .ok (dget kvs k)
  | _ => .error (.attributeError "object has no attribute get")

/-- Python `v.get(k, d)`: only dicts have `get`. -/
def jgetD (v : JVal) (k : String) (d : JVal) : Except PyErr JVal :=
  match v with
  | .obj kvs => .ok (dgetD kvs k d)
  | _ => .error (.attributeError "object has no attribute get")

/-- The `urllib.request.Request` the source builds: HTTP method, full URL,
optional body bytes, and headers (`add_header` stores the raw value, so a
header value is an arbitrary `JVal`). -/
structure HttpReq where
  method : String
  url : String
  data : Option (List Nat)
  headers : List (String × JVal)

/-- Outcome of `urllib.request.urlopen`: a 2xx response with its
`Content-Type` and body bytes, an `HTTPError` with status and decoded body,
or a `URLError` with its transport message. -/
inductive NetOutcome where
  | success (contentType : String) (body : List Nat)
  | httpError (status : Nat) (body : String)
  | urlError (msg : String)

/-- The process environment: `os.environ.get("BINANCE_API_KEY")` and
`os.environ.get("BINANCE_API_SECRET")`. -/
structure Env where
  key : Option String
  secret : Option String

/-- An `os.environ.get` result as the Python value it yields. -/
def envJ : Option String → JVal
  | some s => .str s
  | none => .null

/-- External effects of one request: the HTTP transport, the stdlib
`json.loads` (None = raise `JSONDecodeError`), the stdlib `bytes.decode`
(None = raise `UnicodeDecodeError`), the clock `int(time.time() * 1000)`,
and the process environment. -/
structure World where
  net : HttpReq → NetOutcome
  jloads : List Nat → Option JVal
  utf8dec : List Nat → Option String
  now : Nat
  env : Env

/-- The client state after `BinanceClient.__init__`: resolved key and
secret (still arbitrary values, as Python stores whatever was passed),
the base URL with trailing slashes stripped, and the `allow_public` flag. -/
structure BinanceClient where
  api_key : JVal
  api_secret : JVal
  base_url : String
  allow_public : Bool

/-- `BinanceClient.__init__`: fall back to the environment for key and
secret, strip trailing `/` from the base URL (an `AttributeError` if it is
not a string), then require both credentials unless `allow_public`. -/
def BinanceClient.init (env : Env) (api_key api_secret base_url : JVal)
    (allow_public : Bool) : Except PyErr BinanceClient :=
  let k := pyOr api_key (envJ env.key)
  let s := pyOr api_secret (envJ env.secret)
  match jvalRstripSlash base_url with
  | .error e => .error e
  | .ok b =>
    if (!truthyJ k || !truthyJ s) && !allow_public then
      .error (.valueError "BINANCE_API_KEY and BINANCE_API_SECRET are required")
    else .ok { api_key := k, api_secret := s, base_url := b,
               allow_public := allow_public }

/-- `BinanceClient._sign`: require a secret, drop `None`-valued parameters,
set `timestamp`, form-urlencode, HMAC-SHA256 under the UTF-8 secret, and
set `signature` to the lowercase hex digest.  (Python computes the encoded
query before touching `secret.encode`, so a non-string truthy secret is an
`AttributeError`; the observable error order is unchanged here.) -/
def BinanceClient.sign (c : BinanceClient) (now : Nat)
    (params : List (String × JVal)) : Except PyErr (List (String × JVal)) :=
  if !truthyJ c.api_secret then
    .error (.valueError "Signing requires BINANCE_API_SECRET")
  else
    match c.api_secret with
    | .str secret =>
      let ps := setKey (params.filter (fun kv => !isNull kv.2)) "timestamp"
        (.num now)
      .ok (setKey ps "signature"
        (.str (hmacSha256Hex (strBytes secret) (strBytes (urlencode ps)))))
    | _ => .error (.attributeError "object has no attribute encode")

/-- The first half of `BinanceClient._request`: check the key for signed
calls, sign (or just drop `None` parameters), and build the
`urllib.request.Request` — query in the URL for GET, body bytes otherwise,
plus the `User-Agent` and, for signed calls, `X-MBX-APIKEY` and
`Content-Type` headers. -/
def BinanceClient.buildRequest (c : BinanceClient) (w : World)
    (method path : String) (params : List (String × JVal)) (signed : Bool) :
    Except PyErr HttpReq :=
  if signed && !truthyJ c.api_key then
    .error (.valueError "Signed request requires BINANCE_API_KEY")
  else
    match (if signed then c.sign w.now params
           else .ok (params.filter (fun kv => !isNull kv.2))) with
    | .error e => .error e
    | .ok encoded =>
      let query := urlencode encoded
      let base := c.base_url ++ path
      let isGet := pyUpper method == "GET"
      .ok { method := pyUpper method
            url := if isGet then (if query = "" then base else base ++ "?" ++ query)
                   else base
            data := if isGet then none else some (strBytes query)
            headers := ("User-Agent", JVal.str "binance-mcp-server/1.0") ::
              (if signed then
                [("X-MBX-APIKEY", c.api_key),
                 ("Content-Type", JVal.str "application/x-www-form-urlencoded")]
               else []) }

/-- The second half of `BinanceClient._request`: run the transport and map
its outcome — parse 2xx bodies that look like JSON (otherwise decode as
text), wrap an `HTTPError` as `RuntimeError({status, payload})` parsing the
body when possible, and wrap a `URLError` as
`RuntimeError({status: "network_error", payload: str})`. -/
def interpNet (w : World) (req : HttpReq) : Except PyErr JVal :=
  match w.net req with
  | .success ct body =>
    if strContains ct "application/json" || body.headD 0 == 123 ||
        body.headD 0 == 91 then
      match w.jloads body with
      | some v => .ok v
      | none => .error (.jsonError "response body is not valid JSON")
    else
      match w.utf8dec body with
      | some t => .ok (.str t)
      | none => .error (.valueError "response body is not valid UTF-8")
  | .httpError status body =>
    let parsed := match w.jloads (strBytes body) with
      | some p => p
      | none => .obj [("msg", .str body)]
    .error (.runtimeError (.obj [("status", .num status), ("payload", parsed)]))
  | .urlError msg =>
    .error (.runtimeError (.obj [("status", .str "network_error"),
                                 ("payload", .str msg)]))

/-- `BinanceClient._request`: build the request, then execute it. -/
def BinanceClient.request (c : BinanceClient) (w : World)
    (method path : String) (params : List (String × JVal)) (signed : Bool) :
    Except PyErr JVal :=
  match c.buildRequest w method path params signed with
  | .error e => .error e
  | .ok req => interpNet w req

/-- `BinanceClient.get_account`. -/
def BinanceClient.get_account (c : BinanceClient) (w : World)
    (recv_window : JVal) : Except PyErr JVal :=
  c.request w "GET" "/api/v3/account" [("recvWindow", recv_window)] true

/-- `BinanceClient.get_open_orders`. -/
def BinanceClient.get_open_orders (c : BinanceClient) (w : World)
    (symbol recv_window : JVal) : Except PyErr JVal :=
  c.request w "GET" "/api/v3/openOrders"
    [("symbol", symbol), ("recvWindow", recv_window)] true

/-- `BinanceClient.get_trades`. -/
def BinanceClient.get_trades (c : BinanceClient) (w : World)
    (symbol limit recv_window : JVal) : Except PyErr JVal :=
  c.request w "GET" "/api/v3/myTrades"
    [("symbol", symbol), ("limit", limit), ("recvWindow", recv_window)] true

/-- `BinanceClient.place_order`: upper-case symbol, side and type, choose
the dry-run path when `test`, and POST the signed payload. -/
def BinanceClient.place_order (c : BinanceClient) (w : World)
    (symbol side order_type quantity price time_in_force quote_order_qty
     recv_window : JVal) (test : Bool) : Except PyErr JVal :=
  match jvalUpper symbol with
  | .error e => .error e
  | .ok su =>
  match jvalUpper side with
  | .error e => .error e
  | .ok sd =>
  match jvalUpper order_type with
  | .error e => .error e
  | .ok ot =>
    c.request w "POST" (if test then "/api/v3/order/test" else "/api/v3/order")
      [("symbol", .str su), ("side", .str sd), ("type", .str ot),
       ("quantity", quantity), ("quoteOrderQty", quote_order_qty),
       ("price", price), ("timeInForce", time_in_force),
       ("recvWindow", recv_window)] true

/-- `BinanceClient.get_candles`: upper-case the symbol and GET the public
klines endpoint unsigned. -/
def BinanceClient.get_candles (c : BinanceClient) (w : World)
    (symbol interval limit start_time end_time : JVal) : Except PyErr JVal :=
  match jvalUpper symbol with
  | .error e => .error e
  | .ok su =>
    c.request w "GET" "/api/v3/klines"
      [("symbol", .str su), ("interval", interval), ("limit", limit),
       ("startTime", start_time), ("endTime", end_time)] false

/-- `StdioMCPServer._client_from_params`: per-request credentials override
the environment, and the base URL defaults to `https://api.binance.com`. -/
def client_from_params (env : Env) (params : JVal)
    (allow_missing_keys : Bool) : Except PyErr BinanceClient :=
  match jget params "apiKey" with
  | .error e => .error e
  | .ok pk =>
  match jget params "apiSecret" with
  | .error e => .error e
  | .ok ps =>
  match jget params "baseUrl" with
  | .error e => .error e
  | .ok pb =>
    BinanceClient.init env (pyOr pk (envJ env.key)) (pyOr ps (envJ env.secret))
      (pyOr pb (.str "https://api.binance.com")) allow_missing_keys

/-- `StdioMCPServer._handle_method`: the string-dispatch chain over the six
methods, with each handler's own parameter extraction and validation in
source order. -/
def handle_method (w : World) (method : JVal) (params : JVal) :
    Except PyErr JVal :=
  if jeqStr method "ping" then
    .ok (.obj [("pong", .bool true), ("time", .num w.now)])
  else if jeqStr method "get_account" then
    match client_from_params w.env params false with
    | .error e => .error e
    | .ok c =>
      match jget params "recvWindow" with
      | .error e => .error e
      | .ok rw => c.get_account w rw
  else if jeqStr method "get_open_orders" then
    match client_from_params w.env params false with
    | .error e => .error e
    | .ok c =>
      match jget params "symbol", jget params "recvWindow" with
      | .ok sym, .ok rw => c.get_open_orders w sym rw
      | .error e, _ => .error e
      | _, .error e => .error e
  else if jeqStr method "get_trades" then
    match client_from_params w.env params false with
    | .error e => .error e
    | .ok c =>
      match jget params "symbol" with
      | .error e => .error e
      | .ok sym =>
        if !truthyJ sym then
          .error (.valueError "symbol is required for get_trades")
        else
          match jget params "limit", jget params "recvWindow" with
          | .ok lim, .ok rw => c.get_trades w sym lim rw
          | .error e, _ => .error e
          | _, .error e => .error e
  else if jeqStr method "place_order" then
    match client_from_params w.env params false with
    | .error e => .error e
    | .ok c =>
      match jget params "symbol", jget params "side", jget params "type" with
      | .ok sym, .ok side, .ok otype =>
        if !truthyJ sym || !truthyJ side || !truthyJ otype then
          .error (.valueError
            "symbol, side, and type are required for place_order")
        else
          (match jget params "quantity", jget params "quoteOrderQty",
                 jget params "price", jget params "timeInForce",
                 jget params "recvWindow", jgetD params "test" (.bool false) with
           | .ok qty, .ok qoq, .ok price, .ok tif, .ok rw, .ok test =>
             c.place_order w sym side otype qty price tif qoq rw (truthyJ test)
           | .error e, _, _, _, _, _ => .error e
           | _, .error e, _, _, _, _ => .error e
           | _, _, .error e, _, _, _ => .error e
           | _, _, _, .error e, _, _ => .error e
           | _, _, _, _, .error e, _ => .error e
           | _, _, _, _, _, .error e => .error e)
      | .error e, _, _ => .error e
      | _, .error e, _ => .error e
      | _, _, .error e => .error e
  else if jeqStr method "get_candles" then
    match jget params "symbol", jget params "interval" with
    | .ok sym, .ok itv =>
      if !truthyJ sym || !truthyJ itv then
        .error (.valueError "symbol and interval are required for get_candles")
      else
        match client_from_params w.env params true with
        | .error e => .error e
        | .ok c =>
          match jget params "limit", jget params "startTime",
                jget params "endTime" with
          | .ok lim, .ok st, .ok et => c.get_candles w sym itv lim st et
          | .error e, _, _ => .error e
          | _, .error e, _ => .error e
          | _, _, .error e => .error e
    | .error e, _ => .error e
    | _, .error e => .error e
  else .error (.valueError ("Unknown method: " ++ pyStr method))

/-- A success envelope `{"jsonrpc": "2.0", "id": .., "result": ..}`. -/
def successEnvelope (rid result : JVal) : JVal :=
  .obj [("jsonrpc", .str "2.0"), ("id", rid), ("result", result)]

/-- An error envelope
`{"jsonrpc": "2.0", "id": .., "error": {"code": -32000, "message": ..}}`. -/
def errorEnvelope (rid payload : JVal) : JVal :=
  .obj [("jsonrpc", .str "2.0"), ("id", rid),
        ("error", .obj [("code", .num (-32000)), ("message", payload)])]

/-- The envelope `serve` writes when a line is not valid JSON. -/
def parseErrorEnvelope : JVal :=
  .obj [("jsonrpc", .str "2.0"), ("id", .null),
        ("error", .obj [("code", .num (-32700)), ("message", .str "invalid JSON")])]

/-- `StdioMCPServer._dispatch`: extract `id`, `method` and `params` (these
`request.get` calls run before the `try` block, so a non-dict request
raises out of `_dispatch`), run the handler, and wrap its result or any
caught exception in an envelope. -/
def dispatch (w : World) (request : JVal) : Except PyErr JVal :=
  match request with
  | .obj kvs =>
    let rid := dget kvs "id"
    let method := dget kvs "method"
    let params := pyOr (dget kvs "params") (.obj [])
    match handle_method w method params with
    | .ok result => .ok (successEnvelope rid result)
    | .error e => .ok (errorEnvelope rid e.payload)
  | _ => .error (.attributeError "object has no attribute get")

/-- `StdioMCPServer.serve` over a list of stdin lines: skip blank lines,
answer unparseable lines with the -32700 envelope, dispatch the rest.  The
result is the list of lines written before the loop ends, together with
the exception that terminated the process when one escaped `_dispatch`.
The `parse` argument stands for the stdlib `json.loads` on one line. -/
def serve (w : World) (parse : String → Option JVal) :
    List String → List JVal × Option PyErr
  | [] => ([], none)
  | line :: rest =>
    let l := pyStrip line
    if l = "" then serve w parse rest
    else
      match parse l with
      | none =>
        let r := serve w parse rest
        (parseErrorEnvelope :: r.1, r.2)
      | some payload =>
        match dispatch w payload with
        | .error e => ([], some e)
        | .ok resp =>
          let r := serve w parse rest
          (resp :: r.1, r.2)

/-- The `id` field of a response envelope. -/
def respId : JVal → JVal
  | .obj kvs => dget kvs "id"
  | _ => .null

/-! Fixtures: concrete worlds, clients and a concrete stand-in for
`json.loads` agreeing with it on the specific lines used below. -/

/-- A transport oracle that refuses every connection. -/
def oracleNet : HttpReq → NetOutcome := fun _ => .urlError "connection refused"

/-- A world with no credentials in the environment. -/
def worldNoCreds : World :=
  ⟨oracleNet, fun _ => none, fun _ => none, 1719000000000, ⟨none, none⟩⟩

/-- A world with credentials configured in the environment. -/
def worldCreds : World :=
  ⟨oracleNet, fun _ => none, fun _ => none, 1719000000000,
   ⟨some "test-key", some "test-secret"⟩⟩

/-- A concrete parse oracle agreeing with `json.loads` on the three lines
used in witnesses: a bare number (valid JSON, not an object), a ping
request object, and a line that is not JSON. -/
def parseFixture : String → Option JVal := fun s =>
  if s = "5" then some (.num 5)
  else if s = "\x7b\"id\": 1, \"method\": \"ping\"\x7d" then
    some (.obj [("id", .num 1), ("method", .str "ping")])
  else none

/-! Helper lemmas about the embedded Python primitives. -/

/-- Sanity check of the hash against the FIPS 180-4 test vector for `""`. -/
theorem sha256_vector_empty :
    hexdigest (sha256 []) =
      "e3b0c44298fc1c149afbf4c8996fb92427ae41e4649b934ca495991b7852b855" := by
  rfl

/-- Sanity check of the hash against the FIPS 180-4 test vector for
`"abc"`. -/
theorem sha256_vector_abc :
    hexdigest (sha256 (strBytes "abc")) =
      "ba7816bf8f01cfea414140de5dae2223b00361a396177a9cb410ff61f20015ad" := by
  rfl

/-- Sanity check of HMAC-SHA256 against the RFC 2104 era test vector. -/
theorem hmac_vector_fox :
    hmacSha256Hex (strBytes "key")
        (strBytes "The quick brown fox jumps over the lazy dog") =
      "f7bc83f430538424b13298e6aa6fb143ef4d59a14946175997479dbc2d1a3cd8" := by
  rfl

/-- Assigning a key absent from an ordered dict appends the pair. -/
theorem setKey_append (l : List (String × JVal)) (k : String) (v : JVal)
    (h : ∀ p ∈ l, p.1 ≠ k) : setKey l k v = l ++ [(k, v)] := by
  induction l with
  | nil => rfl
  | cons p rest ih =>
    have hp : p.1 ≠ k := h p (List.mem_cons_self p rest)
    simp only [setKey, if_neg hp, List.cons_append, List.cons.injEq, true_and]
    exact ih (fun q hq => h q (List.mem_cons_of_mem p hq))

/-- Assigning one key leaves pairs with other keys in the dict. -/
theorem mem_setKey_of_ne (l : List (String × JVal)) (k : String) (v : JVal)
    (p : String × JVal) (hp : p ∈ l) (hne : p.1 ≠ k) : p ∈ setKey l k v := by
  induction l with
  | nil => cases hp
  | cons q rest ih =>
    rcases List.mem_cons.mp hp with h | h
    · subst h
      simp only [setKey]
      rw [if_neg hne]
      exact List.mem_cons_self _ _
    · simp only [setKey]
      by_cases hq : q.1 = k
      · rw [if_pos hq]
        exact List.mem_cons_of_mem _ h
      · rw [if_neg hq]
        exact List.mem_cons_of_mem _ (ih h)

/-- The double fallback `(a or env) or env` collapses to a single one
(`__init__` re-applies the fallback `_client_from_params` already did). -/
theorem pyOr_idem (a b : JVal) : pyOr (pyOr a b) b = pyOr a b := by
  unfold pyOr
  by_cases ha : truthyJ a
  · simp [ha]
  · simp [ha]

/-- A SHA-256 digest is 32 bytes. -/
theorem sha256_length (m : List Nat) : (sha256 m).length = 32 := by
  simp [sha256, digestBytes, be32]

/-- An HMAC-SHA256 digest is 32 bytes. -/
theorem hmacSha256_length (k m : List Nat) : (hmacSha256 k m).length = 32 := by
  unfold hmacSha256
  exact sha256_length _

/-- A hex digit drawn from the lowercase table is in the table. -/
theorem hexChar_mem (n : Nat) : lowerHexChars.getD (n % 16) '0' ∈ lowerHexChars := by
  have h : n % 16 < 16 := Nat.mod_lt _ (by norm_num)
  revert h
  generalize n % 16 = m
  intro h
  interval_cases m <;> decide

/-- `hexdigest` produces two characters per byte. -/
theorem hexdigest_length (bs : List Nat) : (hexdigest bs).length = 2 * bs.length := by
  induction bs with
  | nil => rfl
  | cons b rest ih =>
    simp only [hexdigest, List.flatMap_cons, String.length] at ih ⊢
    simp only [List.length_append, List.length_cons, List.length_nil] at ih ⊢
    omega

/-- Every character of a `hexdigest` is a lowercase hex digit. -/
theorem hexdigest_chars (bs : List Nat) :
    ∀ ch ∈ (hexdigest bs).data, ch ∈ lowerHexChars := by
  intro ch hch
  simp only [hexdigest] at hch
  rw [List.mem_flatMap] at hch
  obtain ⟨b, _, hb⟩ := hch
  rcases List.mem_cons.mp hb with h | h
  · subst h; exact hexChar_mem _
  · rcases List.mem_cons.mp h with h' | h'
    · subst h'; exact hexChar_mem _
    · cases h'

/-- A string of length zero is the empty string. -/
theorem string_eq_empty_of_length (s : String) (h : s.length = 0) : s = "" := by
  cases s with
  | mk data =>
    cases data with
    | nil => rfl
    | cons c cs => simp [String.length] at h

/-- Joining with `&` starting from a non-empty piece is non-empty. -/
theorem joinAmp_cons_ne (x : String) (xs : List String) (hx : x ≠ "") :
    joinAmp (x :: xs) ≠ "" := by
  cases xs with
  | nil => simpa [joinAmp] using hx
  | cons y ys =>
    simp only [joinAmp]
    intro h
    have hl := congrArg String.length h
    have hamp : ("&" : String).length = 1 := rfl
    have hemp : ("" : String).length = 0 := rfl
    simp only [String.length_append, hamp, hemp] at hl
    exact hx (string_eq_empty_of_length x (by omega))

/-- A query string whose first parameter is a string-valued `symbol` is
never empty. -/
theorem urlencode_symbol_ne (u : String) (rest : List (String × JVal)) :
    urlencode (("symbol", JVal.str u) :: rest) ≠ "" := by
  simp only [urlencode, List.flatMap_cons, urlencodeEntry, pyStr,
    List.singleton_append]
  apply joinAmp_cons_ne
  intro h
  have hl := congrArg String.length h
  have h6 : (quotePlus "symbol").length = 6 := by decide
  have heq : (("=" : String)).length = 1 := rfl
  have hemp : ("" : String).length = 0 := rfl
  simp only [String.length_append, h6, heq, hemp] at hl
  omega

/-- A dispatched object request always produces an envelope carrying the
request's own `id` — the `try` in `_dispatch` catches every handler
exception. -/
theorem dispatch_obj_ok (w : World) (kvs : List (String × JVal)) :
    ∃ r, dispatch w (.obj kvs) = .ok r ∧ respId r = dget kvs "id" := by
  cases hm : handle_method w (dget kvs "method") (pyOr (dget kvs "params") (.obj [])) with
  | ok v =>
    exact ⟨successEnvelope (dget kvs "id") v, by simp [dispatch, hm], rfl⟩
  | error e =>
    exact ⟨errorEnvelope (dget kvs "id") e.payload, by simp [dispatch, hm], rfl⟩

/-! Claim theorems. -/

/-- Claim C9: a `ping` request is answered with a success envelope carrying
the request's `id` and result `{pong: true, time: now}`, for every world —
in particular for arbitrary transport oracles and empty credentials, since
no client is constructed and no parameter is read. -/
theorem ping_no_client_no_credentials (w : World) (kvs : List (String × JVal))
    (h : dget kvs "method" = .str "ping") :
    dispatch w (.obj kvs) = .ok (successEnvelope (dget kvs "id")
      (.obj [("pong", .bool true), ("time", .num w.now)])) := by
  simp [dispatch, h, handle_method, jeqStr]

/-- Witness for C9 at a concrete ping request in a credential-less world. -/
theorem ping_no_client_no_credentials_witness :
    dget [("id", JVal.num 1), ("method", JVal.str "ping")] "method" = .str "ping"
    ∧ dispatch worldNoCreds (.obj [("id", .num 1), ("method", .str "ping")]) =
        .ok (successEnvelope
          (dget [("id", JVal.num 1), ("method", JVal.str "ping")] "id")
          (.obj [("pong", .bool true), ("time", .num worldNoCreds.now)])) :=
  ⟨rfl, ping_no_client_no_credentials worldNoCreds _ rfl⟩

/-- Claim C2 (code-bug evidence): the input line `5` parses as JSON but not
as an object; `_dispatch` runs `request.get("id")` before its `try` block,
so the `AttributeError` escapes the dispatch boundary and terminates the
serve loop — no error envelope is produced and the following line is never
processed. -/
theorem dispatch_uncaught_on_nonobject_json :
    dispatch worldNoCreds (.num 5) =
      .error (.attributeError "object has no attribute get")
    ∧ serve worldNoCreds parseFixture ["5", "not json"] =
        ([], some (.attributeError "object has no attribute get")) :=
  ⟨rfl, rfl⟩

/-- Claim C3 (counterexample): the non-empty input line `5` parses as JSON
number 5, and `serve` emits no output line for it — the loop dies with an
uncaught `AttributeError` instead, refuting "every non-empty input line
yields exactly one output line". -/
theorem serve_no_output_for_nonobject_json_line :
    pyStrip "5" ≠ "" ∧ parseFixture "5" = some (.num 5)
    ∧ serve worldCreds parseFixture ["5"] =
        ([], some (.attributeError "object has no attribute get")) :=
  ⟨by decide, rfl, rfl⟩

/-- Claim C5 (counterexample): dispatching `get_trades` with empty params in
a world with no configured credentials produces an error envelope whose
message cites the missing credentials — it does not mention `symbol`,
because `_handle_method` constructs the client before checking `symbol`. -/
theorem get_trades_empty_params_credsmsg :
    dispatch worldNoCreds (.obj [("id", .num 7), ("method", .str "get_trades"),
        ("params", .obj [])]) =
      .ok (errorEnvelope (.num 7)
        (.str "BINANCE_API_KEY and BINANCE_API_SECRET are required"))
    ∧ strContains "BINANCE_API_KEY and BINANCE_API_SECRET are required"
        "symbol" = false :=
  ⟨rfl, by decide⟩

/-- Claim C5 (amended): dispatching `get_trades` with an empty parameter
mapping always yields an error envelope (so no network call occurs — the
world, hence the transport oracle, is universally quantified); its message
says `symbol` is required exactly when both environment credentials are
truthy, and cites the missing credentials otherwise. -/
theorem get_trades_empty_params_error (w : World) (kvs : List (String × JVal))
    (hm : dget kvs "method" = .str "get_trades")
    (hp : pyOr (dget kvs "params") (.obj []) = .obj []) :
    dispatch w (.obj kvs) = .ok (errorEnvelope (dget kvs "id")
      (.str (if truthyJ (envJ w.env.key) && truthyJ (envJ w.env.secret)
             then "symbol is required for get_trades"
             else "BINANCE_API_KEY and BINANCE_API_SECRET are required"))) := by
  have t0 : truthyJ .null = false := rfl
  simp only [dispatch, hm, hp]
  by_cases hk : truthyJ (envJ w.env.key) <;> by_cases hs : truthyJ (envJ w.env.secret) <;>
    simp [handle_method, jeqStr, client_from_params, jget, dget, dgetD,
      List.find?, BinanceClient.init, jvalRstripSlash, pyOr, t0, hk, hs,
      BinanceClient.get_trades, errorEnvelope, PyErr.payload]

/-- Witness for the amended C5 at a concrete request with credentials
configured, where the message names the missing `symbol`. -/
theorem get_trades_empty_params_error_witness :
    dget [("id", JVal.num 7), ("method", JVal.str "get_trades")] "method" =
      .str "get_trades"
    ∧ pyOr (dget [("id", JVal.num 7), ("method", JVal.str "get_trades")]
        "params") (.obj []) = .obj []
    ∧ dispatch worldCreds (.obj [("id", .num 7), ("method", .str "get_trades")]) =
        .ok (errorEnvelope
          (dget [("id", JVal.num 7), ("method", JVal.str "get_trades")] "id")
          (.str (if truthyJ (envJ worldCreds.env.key) &&
                    truthyJ (envJ worldCreds.env.secret)
                 then "symbol is required for get_trades"
                 else "BINANCE_API_KEY and BINANCE_API_SECRET are required"))) :=
  ⟨rfl, rfl, get_trades_empty_params_error worldCreds _ rfl rfl⟩

/-- A client with no API key, as `allow_public` construction permits. -/
def clientNoKey : BinanceClient :=
  ⟨.null, .str "test-secret", "https://api.binance.com", true⟩

/-- A client with an API key but no secret. -/
def clientNoSecret : BinanceClient :=
  ⟨.str "test-key", .null, "https://api.binance.com", true⟩

/-- Claim C4: a signed operation with unresolvable credentials fails with a
missing-credential `ValueError` and never consults the transport (the world
carries the oracle and is universally quantified).  Three levels: (1) every
dispatched signed method fails at client construction when the resolved key
or secret is falsy; (2) at the client, a falsy key fails the `_request`
check; (3) at the client, a truthy key with a falsy secret fails inside
`_sign`. -/
theorem signed_ops_missing_credentials :
    (∀ (w : World) (m : String) (kvs : List (String × JVal)) (bs : String),
      m ∈ ["get_account", "get_open_orders", "get_trades", "place_order"] →
      pyOr (dget kvs "baseUrl") (.str "https://api.binance.com") = .str bs →
      (!truthyJ (pyOr (dget kvs "apiKey") (envJ w.env.key))
        || !truthyJ (pyOr (dget kvs "apiSecret") (envJ w.env.secret))) = true →
      handle_method w (.str m) (.obj kvs) =
        .error (.valueError "BINANCE_API_KEY and BINANCE_API_SECRET are required"))
    ∧ (∀ (w : World) (c : BinanceClient) (rw : JVal),
      truthyJ c.api_key = false →
      c.get_account w rw =
        .error (.valueError "Signed request requires BINANCE_API_KEY"))
    ∧ (∀ (w : World) (c : BinanceClient) (rw : JVal),
      truthyJ c.api_key = true → truthyJ c.api_secret = false →
      c.get_account w rw =
        .error (.valueError "Signing requires BINANCE_API_SECRET")) := by
  refine ⟨?_, ?_, ?_⟩
  · intro w m kvs bs hmem hb hcred
    simp only [List.mem_cons, List.mem_singleton, List.not_mem_nil, or_false] at hmem
    rcases hmem with h | h | h | h <;> subst h <;>
      simp [handle_method, jeqStr, client_from_params, jget, BinanceClient.init,
        pyOr_idem, hb, jvalRstripSlash, hcred]
  · intro w c rw h
    simp [BinanceClient.get_account, BinanceClient.request,
      BinanceClient.buildRequest, h]
  · intro w c rw hk hs
    simp [BinanceClient.get_account, BinanceClient.request,
      BinanceClient.buildRequest, BinanceClient.sign, hk, hs]

/-- Witness for C4: a `get_account` dispatch with no credentials anywhere,
a key-less client, and a secret-less client, each failing as stated. -/
theorem signed_ops_missing_credentials_witness :
    (("get_account" : String) ∈
      ["get_account", "get_open_orders", "get_trades", "place_order"]
    ∧ handle_method worldNoCreds (.str "get_account") (.obj []) =
        .error (.valueError "BINANCE_API_KEY and BINANCE_API_SECRET are required"))
    ∧ (truthyJ clientNoKey.api_key = false
    ∧ clientNoKey.get_account worldNoCreds .null =
        .error (.valueError "Signed request requires BINANCE_API_KEY"))
    ∧ (truthyJ clientNoSecret.api_secret = false
    ∧ clientNoSecret.get_account worldNoCreds .null =
        .error (.valueError "Signing requires BINANCE_API_SECRET")) :=
  ⟨⟨by decide, signed_ops_missing_credentials.1 worldNoCreds "get_account" []
      "https://api.binance.com" (by decide) rfl rfl⟩,
   ⟨rfl, signed_ops_missing_credentials.2.1 worldNoCreds clientNoKey .null rfl⟩,
   ⟨rfl, signed_ops_missing_credentials.2.2 worldNoCreds clientNoSecret .null
      rfl rfl⟩⟩

/-- Claim C8: `_client_from_params` resolves credentials with per-request
parameters taking precedence over the environment (under Python `or`, so
for truthy parameter values), the environment supplying the value when the
parameter is absent, and the base URL defaulting to
`https://api.binance.com` when no `baseUrl` parameter is given. -/
theorem credential_resolution_precedence (env : Env) (kvs : List (String × JVal))
    (allow : Bool) (bs : String)
    (hb : pyOr (dget kvs "baseUrl") (.str "https://api.binance.com") = .str bs)
    (hcred : ((truthyJ (pyOr (dget kvs "apiKey") (envJ env.key)) &&
      truthyJ (pyOr (dget kvs "apiSecret") (envJ env.secret))) || allow) = true) :
    client_from_params env (.obj kvs) allow = .ok
      { api_key := pyOr (dget kvs "apiKey") (envJ env.key)
        api_secret := pyOr (dget kvs "apiSecret") (envJ env.secret)
        base_url := pyRstripSlash bs
        allow_public := allow }
    ∧ (truthyJ (dget kvs "apiKey") = true →
        pyOr (dget kvs "apiKey") (envJ env.key) = dget kvs "apiKey")
    ∧ (dget kvs "apiKey" = .null →
        pyOr (dget kvs "apiKey") (envJ env.key) = envJ env.key)
    ∧ (truthyJ (dget kvs "apiSecret") = true →
        pyOr (dget kvs "apiSecret") (envJ env.secret) = dget kvs "apiSecret")
    ∧ (dget kvs "apiSecret" = .null →
        pyOr (dget kvs "apiSecret") (envJ env.secret) = envJ env.secret)
    ∧ (truthyJ (dget kvs "baseUrl") = true →
        pyOr (dget kvs "baseUrl") (.str "https://api.binance.com") =
          dget kvs "baseUrl")
    ∧ (dget kvs "baseUrl" = .null → bs = "https://api.binance.com") := by
  refine ⟨?_, ?_, ?_, ?_, ?_, ?_, ?_⟩
  · have hcond : ((!truthyJ (pyOr (dget kvs "apiKey") (envJ env.key)) ||
        !truthyJ (pyOr (dget kvs "apiSecret") (envJ env.secret))) && !allow) =
          false := by
      revert hcred
      cases truthyJ (pyOr (dget kvs "apiKey") (envJ env.key)) <;>
        cases truthyJ (pyOr (dget kvs "apiSecret") (envJ env.secret)) <;>
        cases allow <;> decide
    simp [client_from_params, jget, BinanceClient.init, pyOr_idem, hb,
      jvalRstripSlash, hcond]
  · intro h; simp [pyOr, h]
  · intro h; simp [h, pyOr, truthyJ]
  · intro h; simp [pyOr, h]
  · intro h; simp [h, pyOr, truthyJ]
  · intro h; simp [pyOr, h]
  · intro h
    rw [h] at hb
    simp [pyOr, truthyJ] at hb
    exact hb.symm

/-- Witness for C8: an explicit `apiKey` parameter wins over a configured
environment key, the secret falls back to the environment, and the base URL
defaults. -/
theorem credential_resolution_precedence_witness :
    pyOr (dget [("apiKey", JVal.str "param-key")] "baseUrl")
      (.str "https://api.binance.com") = .str "https://api.binance.com"
    ∧ ((truthyJ (pyOr (dget [("apiKey", JVal.str "param-key")] "apiKey")
          (envJ worldCreds.env.key)) &&
        truthyJ (pyOr (dget [("apiKey", JVal.str "param-key")] "apiSecret")
          (envJ worldCreds.env.secret))) || false) = true
    ∧ (client_from_params worldCreds.env
        (.obj [("apiKey", JVal.str "param-key")]) false = .ok
        { api_key := pyOr (dget [("apiKey", JVal.str "param-key")] "apiKey")
            (envJ worldCreds.env.key)
          api_secret := pyOr (dget [("apiKey", JVal.str "param-key")] "apiSecret")
            (envJ worldCreds.env.secret)
          base_url := pyRstripSlash "https://api.binance.com"
          allow_public := false }
      ∧ (truthyJ (dget [("apiKey", JVal.str "param-key")] "apiKey") = true →
          pyOr (dget [("apiKey", JVal.str "param-key")] "apiKey")
            (envJ worldCreds.env.key) =
            dget [("apiKey", JVal.str "param-key")] "apiKey")
      ∧ (dget [("apiKey", JVal.str "param-key")] "apiKey" = .null →
          pyOr (dget [("apiKey", JVal.str "param-key")] "apiKey")
            (envJ worldCreds.env.key) = envJ worldCreds.env.key)
      ∧ (truthyJ (dget [("apiKey", JVal.str "param-key")] "apiSecret") = true →
          pyOr (dget [("apiKey", JVal.str "param-key")] "apiSecret")
            (envJ worldCreds.env.secret) =
            dget [("apiKey", JVal.str "param-key")] "apiSecret")
      ∧ (dget [("apiKey", JVal.str "param-key")] "apiSecret" = .null →
          pyOr (dget [("apiKey", JVal.str "param-key")] "apiSecret")
            (envJ worldCreds.env.secret) = envJ worldCreds.env.secret)
      ∧ (truthyJ (dget [("apiKey", JVal.str "param-key")] "baseUrl") = true →
          pyOr (dget [("apiKey", JVal.str "param-key")] "baseUrl")
            (.str "https://api.binance.com") =
            dget [("apiKey", JVal.str "param-key")] "baseUrl")
      ∧ (dget [("apiKey", JVal.str "param-key")] "baseUrl" = .null →
          "https://api.binance.com" = "https://api.binance.com")) :=
  ⟨rfl, rfl, credential_resolution_precedence worldCreds.env
    [("apiKey", JVal.str "param-key")] false "https://api.binance.com" rfl rfl⟩

/-- Claim C1: `_sign` drops exactly the `None`-valued parameters, appends a
millisecond `timestamp`, form-urlencodes the remaining pairs in insertion
order, signs that encoded string (and nothing else — the signature pair is
not part of the signed string) with HMAC-SHA256 under the UTF-8 API secret,
renders the digest as 64 lowercase hex characters, and appends `signature`
as the final parameter; on the unsigned path the `None`-valued parameters
are likewise dropped before encoding. -/
theorem sign_drops_nulls_signs_query_appends_signature (c : BinanceClient)
    (now : Nat) (secret : String) (params : List (String × JVal))
    (hsec : c.api_secret = .str secret) (hne : secret ≠ "")
    (hts : ∀ p ∈ params, p.1 ≠ "timestamp")
    (hsg : ∀ p ∈ params, p.1 ≠ "signature") :
    ∃ sig : String,
      c.sign now params = .ok ((params.filter (fun kv => !isNull kv.2)) ++
        [("timestamp", JVal.num now), ("signature", JVal.str sig)])
      ∧ sig = hmacSha256Hex (strBytes secret)
          (strBytes (urlencode ((params.filter (fun kv => !isNull kv.2)) ++
            [("timestamp", JVal.num now)])))
      ∧ sig.length = 64
      ∧ (∀ ch ∈ sig.data, ch ∈ lowerHexChars)
      ∧ (∀ p ∈ params.filter (fun kv => !isNull kv.2),
          isNull p.2 = false ∧ p ∈ params)
      ∧ (∀ (w : World) (path : String), ∃ req,
          c.buildRequest w "GET" path params false = .ok req
          ∧ req.data = none
          ∧ (req.url = c.base_url ++ path ∨
             req.url = c.base_url ++ path ++ "?" ++
               urlencode (params.filter (fun kv => !isNull kv.2)))) := by
  have hcl : ∀ p ∈ params.filter (fun kv => !isNull kv.2), p ∈ params :=
    fun p hp => List.mem_of_mem_filter hp
  have h1 : setKey (params.filter (fun kv => !isNull kv.2)) "timestamp"
      (.num now) = params.filter (fun kv => !isNull kv.2) ++
        [("timestamp", JVal.num now)] :=
    setKey_append _ _ _ (fun p hp => hts p (hcl p hp))
  have h2 : setKey (params.filter (fun kv => !isNull kv.2) ++
      [("timestamp", JVal.num now)]) "signature"
      (.str (hmacSha256Hex (strBytes secret)
        (strBytes (urlencode (params.filter (fun kv => !isNull kv.2) ++
          [("timestamp", JVal.num now)]))))) =
      params.filter (fun kv => !isNull kv.2) ++
        [("timestamp", JVal.num now),
         ("signature", JVal.str (hmacSha256Hex (strBytes secret)
           (strBytes (urlencode (params.filter (fun kv => !isNull kv.2) ++
             [("timestamp", JVal.num now)])))))] := by
    rw [setKey_append]
    · simp
    · intro p hp
      rcases List.mem_append.mp hp with h | h
      · exact hsg p (hcl p h)
      · simp at h
        subst h
        simp
  refine ⟨_, ?_, rfl, ?_, ?_, ?_, ?_⟩
  · simp only [BinanceClient.sign, hsec, truthyJ]
    rw [h1, h2]
    simp [hne]
  · rw [hmacSha256Hex, hexdigest_length, hmacSha256_length]
  · exact hexdigest_chars _
  · intro p hp
    have := List.mem_filter.mp hp
    refine ⟨?_, this.1⟩
    have := this.2
    simpa using this
  · intro w path
    have hg : (pyUpper "GET" == "GET") = true := by decide
    by_cases hq : urlencode (params.filter (fun kv => !isNull kv.2)) = ""
    · refine ⟨⟨pyUpper "GET", c.base_url ++ path, none,
        [("User-Agent", JVal.str "binance-mcp-server/1.0")]⟩, ?_, rfl, Or.inl rfl⟩
      simp [BinanceClient.buildRequest, hq, hg]
    · refine ⟨⟨pyUpper "GET",
        c.base_url ++ path ++ "?" ++
          urlencode (params.filter (fun kv => !isNull kv.2)), none,
        [("User-Agent", JVal.str "binance-mcp-server/1.0")]⟩, ?_, rfl, Or.inr rfl⟩
      simp [BinanceClient.buildRequest, hq, hg]

/-- A fully configured client fixture. -/
def clientFull : BinanceClient :=
  ⟨.str "test-key", .str "test-secret", "https://api.binance.com", false⟩

/-- Witness for C1 at a concrete parameter mapping with one `None` entry. -/
theorem sign_drops_nulls_signs_query_appends_signature_witness :
    clientFull.api_secret = .str "test-secret"
    ∧ ("test-secret" : String) ≠ ""
    ∧ (∀ p ∈ [("symbol", JVal.str "BTCUSDT"), ("limit", JVal.null)],
        p.1 ≠ "timestamp")
    ∧ (∀ p ∈ [("symbol", JVal.str "BTCUSDT"), ("limit", JVal.null)],
        p.1 ≠ "signature")
    ∧ (∃ sig : String,
      clientFull.sign 1719000000000
          [("symbol", JVal.str "BTCUSDT"), ("limit", JVal.null)] =
        .ok (([("symbol", JVal.str "BTCUSDT"), ("limit", JVal.null)].filter
            (fun kv => !isNull kv.2)) ++
          [("timestamp", JVal.num 1719000000000), ("signature", JVal.str sig)])
      ∧ sig = hmacSha256Hex (strBytes "test-secret")
          (strBytes (urlencode (([("symbol", JVal.str "BTCUSDT"),
            ("limit", JVal.null)].filter (fun kv => !isNull kv.2)) ++
            [("timestamp", JVal.num 1719000000000)])))
      ∧ sig.length = 64
      ∧ (∀ ch ∈ sig.data, ch ∈ lowerHexChars)
      ∧ (∀ p ∈ [("symbol", JVal.str "BTCUSDT"), ("limit", JVal.null)].filter
          (fun kv => !isNull kv.2),
          isNull p.2 = false ∧
            p ∈ [("symbol", JVal.str "BTCUSDT"), ("limit", JVal.null)])
      ∧ (∀ (w : World) (path : String), ∃ req,
          clientFull.buildRequest w "GET" path
            [("symbol", JVal.str "BTCUSDT"), ("limit", JVal.null)] false = .ok req
          ∧ req.data = none
          ∧ (req.url = clientFull.base_url ++ path ∨
             req.url = clientFull.base_url ++ path ++ "?" ++
               urlencode ([("symbol", JVal.str "BTCUSDT"),
                 ("limit", JVal.null)].filter (fun kv => !isNull kv.2))))) :=
  ⟨rfl, by decide, by decide, by decide,
   sign_drops_nulls_signs_query_appends_signature clientFull 1719000000000
     "test-secret" [("symbol", JVal.str "BTCUSDT"), ("limit", JVal.null)]
     rfl (by decide) (by decide) (by decide)⟩

/-- The unsigned GET request `get_candles` builds: `/api/v3/klines` with the
`None`-cleaned parameters as the query string and only the `User-Agent`
header. -/
theorem get_candles_request_shape (c : BinanceClient) (w : World) (s : String)
    (interval limit st et : JVal) :
    ∃ req,
      c.buildRequest w "GET" "/api/v3/klines"
        [("symbol", .str (pyUpper s)), ("interval", interval),
         ("limit", limit), ("startTime", st), ("endTime", et)] false = .ok req
      ∧ c.get_candles w (.str s) interval limit st et = interpNet w req
      ∧ req.method = pyUpper "GET" ∧ req.data = none
      ∧ req.headers = [("User-Agent", JVal.str "binance-mcp-server/1.0")]
      ∧ req.url = c.base_url ++ "/api/v3/klines" ++ "?" ++
          urlencode ([("symbol", JVal.str (pyUpper s)), ("interval", interval),
            ("limit", limit), ("startTime", st), ("endTime", et)].filter
            (fun kv => !isNull kv.2)) := by
  have hg : (pyUpper "GET" == "GET") = true := by decide
  have hcons : [("symbol", JVal.str (pyUpper s)), ("interval", interval),
      ("limit", limit), ("startTime", st), ("endTime", et)].filter
      (fun kv => !isNull kv.2) = ("symbol", JVal.str (pyUpper s)) ::
        ([("interval", interval), ("limit", limit), ("startTime", st),
          ("endTime", et)].filter (fun kv => !isNull kv.2)) := by
    simp [List.filter, isNull]
  have hq : urlencode ([("symbol", JVal.str (pyUpper s)), ("interval", interval),
      ("limit", limit), ("startTime", st), ("endTime", et)].filter
      (fun kv => !isNull kv.2)) ≠ "" := by
    rw [hcons]
    exact urlencode_symbol_ne _ _
  have hbuild : c.buildRequest w "GET" "/api/v3/klines"
      [("symbol", .str (pyUpper s)), ("interval", interval),
       ("limit", limit), ("startTime", st), ("endTime", et)] false = .ok
      ⟨pyUpper "GET",
       c.base_url ++ "/api/v3/klines" ++ "?" ++
         urlencode ([("symbol", JVal.str (pyUpper s)), ("interval", interval),
           ("limit", limit), ("startTime", st), ("endTime", et)].filter
           (fun kv => !isNull kv.2)),
       none, [("User-Agent", JVal.str "binance-mcp-server/1.0")]⟩ := by
    simp [BinanceClient.buildRequest, hq, hg]
  refine ⟨_, hbuild, ?_, rfl, rfl, rfl, rfl⟩
  simp [BinanceClient.get_candles, jvalUpper, BinanceClient.request, hbuild]

/-- Claim C10: `get_candles` upper-cases the symbol before placing it in the
query, transmits `interval` (and the other parameters) unchanged, and drops
exactly the `None`-valued parameters. -/
theorem get_candles_uppercases_symbol_only (c : BinanceClient) (w : World)
    (s : String) (interval limit st et : JVal) :
    ∃ req,
      c.buildRequest w "GET" "/api/v3/klines"
        [("symbol", .str (pyUpper s)), ("interval", interval),
         ("limit", limit), ("startTime", st), ("endTime", et)] false = .ok req
      ∧ c.get_candles w (.str s) interval limit st et = interpNet w req
      ∧ req.url = c.base_url ++ "/api/v3/klines" ++ "?" ++
          urlencode ([("symbol", JVal.str (pyUpper s)), ("interval", interval),
            ("limit", limit), ("startTime", st), ("endTime", et)].filter
            (fun kv => !isNull kv.2))
      ∧ ("symbol", JVal.str (pyUpper s)) ∈
          ([("symbol", JVal.str (pyUpper s)), ("interval", interval),
            ("limit", limit), ("startTime", st), ("endTime", et)].filter
            (fun kv => !isNull kv.2))
      ∧ (isNull interval = false → ("interval", interval) ∈
          ([("symbol", JVal.str (pyUpper s)), ("interval", interval),
            ("limit", limit), ("startTime", st), ("endTime", et)].filter
            (fun kv => !isNull kv.2)))
      ∧ (isNull limit = true → ∀ v, ("limit", v) ∉
          ([("symbol", JVal.str (pyUpper s)), ("interval", interval),
            ("limit", limit), ("startTime", st), ("endTime", et)].filter
            (fun kv => !isNull kv.2)))
      ∧ (isNull st = true → ∀ v, ("startTime", v) ∉
          ([("symbol", JVal.str (pyUpper s)), ("interval", interval),
            ("limit", limit), ("startTime", st), ("endTime", et)].filter
            (fun kv => !isNull kv.2)))
      ∧ (isNull et = true → ∀ v, ("endTime", v) ∉
          ([("symbol", JVal.str (pyUpper s)), ("interval", interval),
            ("limit", limit), ("startTime", st), ("endTime", et)].filter
            (fun kv => !isNull kv.2))) := by
  obtain ⟨req, hbuild, hcall, hmeth, hdata, hhdr, hurl⟩ :=
    get_candles_request_shape c w s interval limit st et
  refine ⟨req, hbuild, hcall, hurl, ?_, ?_, ?_, ?_, ?_⟩
  · exact List.mem_filter.mpr ⟨by simp, by simp [isNull]⟩
  · intro h
    exact List.mem_filter.mpr ⟨by simp, by simp [h]⟩
  · intro h v hv
    obtain ⟨hm, hc⟩ := List.mem_filter.mp hv
    simp only [List.mem_cons, List.not_mem_nil, or_false, Prod.mk.injEq] at hm
    rcases hm with ⟨h1, _⟩ | ⟨h1, h2⟩ | ⟨h1, h2⟩ | ⟨h1, _⟩ | ⟨h1, _⟩ <;>
      simp_all
  · intro h v hv
    obtain ⟨hm, hc⟩ := List.mem_filter.mp hv
    simp only [List.mem_cons, List.not_mem_nil, or_false, Prod.mk.injEq] at hm
    rcases hm with ⟨h1, _⟩ | ⟨h1, _⟩ | ⟨h1, _⟩ | ⟨h1, h2⟩ | ⟨h1, _⟩ <;>
      simp_all
  · intro h v hv
    obtain ⟨hm, hc⟩ := List.mem_filter.mp hv
    simp only [List.mem_cons, List.not_mem_nil, or_false, Prod.mk.injEq] at hm
    rcases hm with ⟨h1, _⟩ | ⟨h1, _⟩ | ⟨h1, _⟩ | ⟨h1, _⟩ | ⟨h1, h2⟩ <;>
      simp_all

/-- Claim C7: a `get_candles` dispatch with a non-empty string symbol and a
truthy interval proceeds to the network for every environment — in
particular with no credentials configured — and the unsigned request it
sends carries no `X-MBX-APIKEY` header and no `signature` parameter. -/
theorem get_candles_tolerates_missing_credentials (w : World)
    (kvs : List (String × JVal)) (s bs : String)
    (hs : dget kvs "symbol" = .str s) (hsne : s ≠ "")
    (hi : truthyJ (dget kvs "interval") = true)
    (hb : pyOr (dget kvs "baseUrl") (.str "https://api.binance.com") = .str bs) :
    ∃ req,
      handle_method w (.str "get_candles") (.obj kvs) = interpNet w req
      ∧ req.headers = [("User-Agent", JVal.str "binance-mcp-server/1.0")]
      ∧ (∀ v, ("X-MBX-APIKEY", v) ∉ req.headers)
      ∧ req.data = none
      ∧ ∃ ps, req.url = pyRstripSlash bs ++ "/api/v3/klines" ++ "?" ++ urlencode ps
          ∧ ∀ p ∈ ps, p.1 ≠ "signature" := by
  have hts : truthyJ (.str s) = true := by simp [truthyJ, hsne]
  have hclient : client_from_params w.env (.obj kvs) true = .ok
      ⟨pyOr (dget kvs "apiKey") (envJ w.env.key),
       pyOr (dget kvs "apiSecret") (envJ w.env.secret),
       pyRstripSlash bs, true⟩ := by
    simp [client_from_params, jget, BinanceClient.init, pyOr_idem, hb,
      jvalRstripSlash]
  have hhm : handle_method w (.str "get_candles") (.obj kvs) =
      BinanceClient.get_candles
        ⟨pyOr (dget kvs "apiKey") (envJ w.env.key),
         pyOr (dget kvs "apiSecret") (envJ w.env.secret),
         pyRstripSlash bs, true⟩ w (.str s) (dget kvs "interval")
        (dget kvs "limit") (dget kvs "startTime") (dget kvs "endTime") := by
    simp [handle_method, jeqStr, jget, hs, hi, hts, hclient]
  obtain ⟨req, hbuild, hcall, hmeth, hdata, hhdr, hurl⟩ :=
    get_candles_request_shape
      ⟨pyOr (dget kvs "apiKey") (envJ w.env.key),
       pyOr (dget kvs "apiSecret") (envJ w.env.secret),
       pyRstripSlash bs, true⟩ w s (dget kvs "interval")
      (dget kvs "limit") (dget kvs "startTime") (dget kvs "endTime")
  refine ⟨req, by rw [hhm, hcall], hhdr, ?_, hdata, ?_⟩
  · intro v hv
    rw [hhdr] at hv
    simp at hv
  · refine ⟨[("symbol", JVal.str (pyUpper s)), ("interval", dget kvs "interval"),
      ("limit", dget kvs "limit"), ("startTime", dget kvs "startTime"),
      ("endTime", dget kvs "endTime")].filter (fun kv => !isNull kv.2), ?_, ?_⟩
    · rw [hurl]
    · intro p hp
      have hm := List.mem_of_mem_filter hp
      simp only [List.mem_cons, List.not_mem_nil, or_false] at hm
      rcases hm with h | h | h | h | h <;> subst h <;> simp

/-- Witness for C7 at a concrete `get_candles` request in a world with no
credentials configured anywhere. -/
theorem get_candles_tolerates_missing_credentials_witness :
    dget [("symbol", JVal.str "btcusdt"), ("interval", JVal.str "1m")]
      "symbol" = .str "btcusdt"
    ∧ ("btcusdt" : String) ≠ ""
    ∧ truthyJ (dget [("symbol", JVal.str "btcusdt"),
        ("interval", JVal.str "1m")] "interval") = true
    ∧ pyOr (dget [("symbol", JVal.str "btcusdt"), ("interval", JVal.str "1m")]
        "baseUrl") (.str "https://api.binance.com") =
        .str "https://api.binance.com"
    ∧ (∃ req,
      handle_method worldNoCreds (.str "get_candles")
          (.obj [("symbol", JVal.str "btcusdt"), ("interval", JVal.str "1m")]) =
        interpNet worldNoCreds req
      ∧ req.headers = [("User-Agent", JVal.str "binance-mcp-server/1.0")]
      ∧ (∀ v, ("X-MBX-APIKEY", v) ∉ req.headers)
      ∧ req.data = none
      ∧ ∃ ps, req.url = pyRstripSlash "https://api.binance.com" ++
            "/api/v3/klines" ++ "?" ++ urlencode ps
          ∧ ∀ p ∈ ps, p.1 ≠ "signature") :=
  ⟨rfl, by decide, rfl, rfl,
   get_candles_tolerates_missing_credentials worldNoCreds
     [("symbol", JVal.str "btcusdt"), ("interval", JVal.str "1m")]
     "btcusdt" "https://api.binance.com" rfl (by decide) rfl rfl⟩

/-- The serve loop on a stream whose parseable lines are all JSON objects:
it never crashes, and emits per non-blank line exactly the envelope the
line determines (parse failure or dispatch result). -/
theorem serve_object_lines_aux (w : World) (parse : String → Option JVal) :
    ∀ (lines : List String),
    lines.all (fun l => match parse (pyStrip l) with
      | none => true
      | some (.obj _) => true
      | some _ => false) = true →
    (serve w parse lines).2 = none
    ∧ (serve w parse lines).1 =
        lines.filterMap (fun l =>
          if pyStrip l = "" then none
          else match parse (pyStrip l) with
            | none => some parseErrorEnvelope
            | some v => (dispatch w v).toOption)
    ∧ (serve w parse lines).1.length =
        lines.countP (fun l => !(pyStrip l == "")) := by
  intro lines
  induction lines with
  | nil => intro _; exact ⟨rfl, rfl, rfl⟩
  | cons l rest ih =>
    intro H
    rw [List.all_cons, Bool.and_eq_true] at H
    obtain ⟨hpl, hrest⟩ := H
    obtain ⟨ih1, ih2, ih3⟩ := ih hrest
    by_cases hstrip : pyStrip l = ""
    · have hbeq : (pyStrip l == "") = true := by simp [hstrip]
      refine ⟨?_, ?_, ?_⟩
      · simpa [serve, hstrip] using ih1
      · simpa [serve, hstrip] using ih2
      · simpa [serve, hstrip, List.countP_cons, hbeq] using ih3
    · have hbeq : (pyStrip l == "") = false := by simp [hstrip]
      cases hp : parse (pyStrip l) with
      | none =>
        refine ⟨?_, ?_, ?_⟩
        · simpa [serve, hstrip, hp] using ih1
        · simpa [serve, hstrip, hp] using ih2
        · simpa [serve, hstrip, hp, List.countP_cons, hbeq] using ih3
      | some v =>
        cases v with
        | obj kvs =>
          obtain ⟨r, hr, _⟩ := dispatch_obj_ok w kvs
          refine ⟨?_, ?_, ?_⟩
          · simpa [serve, hstrip, hp, hr] using ih1
          · simpa [serve, hstrip, hp, hr, Except.toOption] using ih2
          · simpa [serve, hstrip, hp, hr, List.countP_cons, hbeq] using ih3
        | null => rw [hp] at hpl; simp at hpl
        | bool b => rw [hp] at hpl; simp at hpl
        | num n => rw [hp] at hpl; simp at hpl
        | str st => rw [hp] at hpl; simp at hpl
        | arr xs => rw [hp] at hpl; simp at hpl

/-- Claim C3 (amended): over a stream whose parseable lines are all JSON
objects, the loop never crashes, each non-blank line yields exactly one
output line (blank lines are skipped), an unparseable line yields the
-32700 "invalid JSON" envelope with a null id (visible in the per-line
response map), and an object line's response carries that object's own
`id`. -/
theorem serve_roundtrip_object_lines (w : World) (parse : String → Option JVal)
    (lines : List String)
    (H : lines.all (fun l => match parse (pyStrip l) with
      | none => true
      | some (.obj _) => true
      | some _ => false) = true) :
    (serve w parse lines).2 = none
    ∧ (serve w parse lines).1 =
        lines.filterMap (fun l =>
          if pyStrip l = "" then none
          else match parse (pyStrip l) with
            | none => some parseErrorEnvelope
            | some v => (dispatch w v).toOption)
    ∧ (serve w parse lines).1.length =
        lines.countP (fun l => !(pyStrip l == ""))
    ∧ (∀ kvs : List (String × JVal), ∃ r,
        dispatch w (JVal.obj kvs) = .ok r ∧ respId r = dget kvs "id") :=
  ⟨(serve_object_lines_aux w parse lines H).1,
   (serve_object_lines_aux w parse lines H).2.1,
   (serve_object_lines_aux w parse lines H).2.2,
   fun kvs => dispatch_obj_ok w kvs⟩

/-- Witness for the amended C3 on a concrete stream: a blank line, a ping
request object, and an unparseable line. -/
theorem serve_roundtrip_object_lines_witness :
    (["  ", "\x7b\"id\": 1, \"method\": \"ping\"\x7d", "not json"].all
      (fun l => match parseFixture (pyStrip l) with
        | none => true
        | some (.obj _) => true
        | some _ => false) = true)
    ∧ ((serve worldCreds parseFixture
        ["  ", "\x7b\"id\": 1, \"method\": \"ping\"\x7d", "not json"]).2 = none
    ∧ (serve worldCreds parseFixture
        ["  ", "\x7b\"id\": 1, \"method\": \"ping\"\x7d", "not json"]).1 =
        ["  ", "\x7b\"id\": 1, \"method\": \"ping\"\x7d", "not json"].filterMap
          (fun l =>
            if pyStrip l = "" then none
            else match parseFixture (pyStrip l) with
              | none => some parseErrorEnvelope
              | some v => (dispatch worldCreds v).toOption)
    ∧ (serve worldCreds parseFixture
        ["  ", "\x7b\"id\": 1, \"method\": \"ping\"\x7d", "not json"]).1.length =
        ["  ", "\x7b\"id\": 1, \"method\": \"ping\"\x7d", "not json"].countP
          (fun l => !(pyStrip l == ""))
    ∧ (∀ kvs : List (String × JVal), ∃ r,
        dispatch worldCreds (JVal.obj kvs) = .ok r ∧ respId r = dget kvs "id")) :=
  ⟨rfl, serve_roundtrip_object_lines worldCreds parseFixture
    ["  ", "\x7b\"id\": 1, \"method\": \"ping\"\x7d", "not json"] rfl⟩

/-- Claim C6 (counterexample): `place_order` dispatched with empty params in
a world with no configured credentials fails with the missing-credential
message, not the missing-parameter one — the client is constructed before
symbol/side/type are checked. -/
theorem place_order_missing_params_credsmsg :
    handle_method worldNoCreds (.str "place_order") (.obj []) =
      .error (.valueError "BINANCE_API_KEY and BINANCE_API_SECRET are required")
    ∧ ("BINANCE_API_KEY and BINANCE_API_SECRET are required" : String) ≠
        "symbol, side, and type are required for place_order" :=
  ⟨rfl, by decide⟩

/-- Claim C6 (amended): with resolvable credentials, `place_order` fails
with the missing-parameter `ValueError` when symbol, side or type is falsy;
with all three present as non-empty strings it POSTs the signed payload to
`/api/v3/order/test` when `params.test` is truthy and `/api/v3/order`
otherwise, with symbol, side and type upper-cased in the transmitted
(signed) parameter list. -/
theorem place_order_validation_and_routing :
    (∀ (w : World) (kvs : List (String × JVal)) (bs : String),
      truthyJ (pyOr (dget kvs "apiKey") (envJ w.env.key)) = true →
      truthyJ (pyOr (dget kvs "apiSecret") (envJ w.env.secret)) = true →
      pyOr (dget kvs "baseUrl") (.str "https://api.binance.com") = .str bs →
      (!truthyJ (dget kvs "symbol") || !truthyJ (dget kvs "side") ||
        !truthyJ (dget kvs "type")) = true →
      handle_method w (.str "place_order") (.obj kvs) =
        .error (.valueError "symbol, side, and type are required for place_order"))
    ∧ (∀ (w : World) (kvs : List (String × JVal)) (bs k sec s sd tp : String),
      pyOr (dget kvs "apiKey") (envJ w.env.key) = .str k → k ≠ "" →
      pyOr (dget kvs "apiSecret") (envJ w.env.secret) = .str sec → sec ≠ "" →
      pyOr (dget kvs "baseUrl") (.str "https://api.binance.com") = .str bs →
      dget kvs "symbol" = .str s → s ≠ "" →
      dget kvs "side" = .str sd → sd ≠ "" →
      dget kvs "type" = .str tp → tp ≠ "" →
      ∃ req sp,
        handle_method w (.str "place_order") (.obj kvs) = interpNet w req
        ∧ req.method = pyUpper "POST"
        ∧ req.url = pyRstripSlash bs ++
            (if truthyJ (dgetD kvs "test" (.bool false)) then "/api/v3/order/test"
             else "/api/v3/order")
        ∧ req.data = some (strBytes (urlencode sp))
        ∧ req.headers = [("User-Agent", JVal.str "binance-mcp-server/1.0"),
            ("X-MBX-APIKEY", JVal.str k),
            ("Content-Type", JVal.str "application/x-www-form-urlencoded")]
        ∧ ("symbol", JVal.str (pyUpper s)) ∈ sp
        ∧ ("side", JVal.str (pyUpper sd)) ∈ sp
        ∧ ("type", JVal.str (pyUpper tp)) ∈ sp) := by
  constructor
  · intro w kvs bs hkt hst hb hcond
    simp [handle_method, jeqStr, client_from_params, jget, BinanceClient.init,
      pyOr_idem, hkt, hst, hb, jvalRstripSlash, hcond]
  · intro w kvs bs k sec s sd tp hk hkne hsec hsecne hb hsym hs1 hside hs2
      htype hs3
    have hk2 : pyOr (.str k) (envJ w.env.key) = JVal.str k := by
      simp [pyOr, truthyJ, hkne]
    have hsec2 : pyOr (.str sec) (envJ w.env.secret) = JVal.str sec := by
      simp [pyOr, truthyJ, hsecne]
    have hclient : client_from_params w.env (.obj kvs) false = .ok
        ⟨.str k, .str sec, pyRstripSlash bs, false⟩ := by
      simp [client_from_params, jget, BinanceClient.init, hk, hsec, hk2, hsec2,
        hb, jvalRstripSlash, truthyJ, hkne, hsecne]
    have hhm : handle_method w (.str "place_order") (.obj kvs) =
        BinanceClient.place_order ⟨.str k, .str sec, pyRstripSlash bs, false⟩ w
          (.str s) (.str sd) (.str tp) (dget kvs "quantity") (dget kvs "price")
          (dget kvs "timeInForce") (dget kvs "quoteOrderQty")
          (dget kvs "recvWindow") (truthyJ (dgetD kvs "test" (.bool false))) := by
      simp [handle_method, jeqStr, jget, jgetD, hsym, hside, htype, truthyJ,
        hs1, hs2, hs3, hclient]
    have hkeys1 : ∀ p ∈ ([("symbol", JVal.str (pyUpper s)),
        ("side", JVal.str (pyUpper sd)), ("type", JVal.str (pyUpper tp)),
        ("quantity", dget kvs "quantity"), ("quoteOrderQty", dget kvs "quoteOrderQty"),
        ("price", dget kvs "price"), ("timeInForce", dget kvs "timeInForce"),
        ("recvWindow", dget kvs "recvWindow")].filter (fun kv => !isNull kv.2)),
        p.1 ≠ "timestamp" := by
      intro p hp
      have hm := List.mem_of_mem_filter hp
      simp only [List.mem_cons, List.not_mem_nil, or_false] at hm
      rcases hm with h | h | h | h | h | h | h | h <;> subst h <;> simp
    have hkeys2 : ∀ p ∈ (([("symbol", JVal.str (pyUpper s)),
        ("side", JVal.str (pyUpper sd)), ("type", JVal.str (pyUpper tp)),
        ("quantity", dget kvs "quantity"), ("quoteOrderQty", dget kvs "quoteOrderQty"),
        ("price", dget kvs "price"), ("timeInForce", dget kvs "timeInForce"),
        ("recvWindow", dget kvs "recvWindow")].filter (fun kv => !isNull kv.2)) ++
          [("timestamp", JVal.num w.now)]), p.1 ≠ "signature" := by
      intro p hp
      rcases List.mem_append.mp hp with h | h
      · have hm := List.mem_of_mem_filter h
        simp only [List.mem_cons, List.not_mem_nil, or_false] at hm
        rcases hm with h | h | h | h | h | h | h | h <;> subst h <;> simp
      · simp only [List.mem_singleton] at h
        subst h
        simp
    have hsign : BinanceClient.sign ⟨.str k, .str sec, pyRstripSlash bs, false⟩
        w.now
        [("symbol", JVal.str (pyUpper s)), ("side", JVal.str (pyUpper sd)),
         ("type", JVal.str (pyUpper tp)), ("quantity", dget kvs "quantity"),
         ("quoteOrderQty", dget kvs "quoteOrderQty"), ("price", dget kvs "price"),
         ("timeInForce", dget kvs "timeInForce"),
         ("recvWindow", dget kvs "recvWindow")] = .ok
        (([("symbol", JVal.str (pyUpper s)), ("side", JVal.str (pyUpper sd)),
          ("type", JVal.str (pyUpper tp)), ("quantity", dget kvs "quantity"),
          ("quoteOrderQty", dget kvs "quoteOrderQty"), ("price", dget kvs "price"),
          ("timeInForce", dget kvs "timeInForce"),
          ("recvWindow", dget kvs "recvWindow")].filter (fun kv => !isNull kv.2)) ++
         [("timestamp", JVal.num w.now),
          ("signature", JVal.str (hmacSha256Hex (strBytes sec)
            (strBytes (urlencode (([("symbol", JVal.str (pyUpper s)),
              ("side", JVal.str (pyUpper sd)), ("type", JVal.str (pyUpper tp)),
              ("quantity", dget kvs "quantity"),
              ("quoteOrderQty", dget kvs "quoteOrderQty"),
              ("price", dget kvs "price"), ("timeInForce", dget kvs "timeInForce"),
              ("recvWindow", dget kvs "recvWindow")].filter
              (fun kv => !isNull kv.2)) ++ [("timestamp", JVal.num w.now)])))))]) := by
      simp only [BinanceClient.sign, truthyJ]
      rw [setKey_append _ _ _ hkeys1, setKey_append _ _ _ hkeys2]
      simp [hsecne]
    have hpost : (pyUpper "POST" == "GET") = false := by decide
    have hbuild : BinanceClient.buildRequest
        ⟨.str k, .str sec, pyRstripSlash bs, false⟩ w "POST"
        (if truthyJ (dgetD kvs "test" (.bool false)) then "/api/v3/order/test"
         else "/api/v3/order")
        [("symbol", JVal.str (pyUpper s)), ("side", JVal.str (pyUpper sd)),
         ("type", JVal.str (pyUpper tp)), ("quantity", dget kvs "quantity"),
         ("quoteOrderQty", dget kvs "quoteOrderQty"), ("price", dget kvs "price"),
         ("timeInForce", dget kvs "timeInForce"),
         ("recvWindow", dget kvs "recvWindow")] true = .ok
        ⟨pyUpper "POST",
         pyRstripSlash bs ++
           (if truthyJ (dgetD kvs "test" (.bool false)) then "/api/v3/order/test"
            else "/api/v3/order"),
         some (strBytes (urlencode
           (([("symbol", JVal.str (pyUpper s)), ("side", JVal.str (pyUpper sd)),
             ("type", JVal.str (pyUpper tp)), ("quantity", dget kvs "quantity"),
             ("quoteOrderQty", dget kvs "quoteOrderQty"),
             ("price", dget kvs "price"), ("timeInForce", dget kvs "timeInForce"),
             ("recvWindow", dget kvs "recvWindow")].filter
             (fun kv => !isNull kv.2)) ++
            [("timestamp", JVal.num w.now),
             ("signature", JVal.str (hmacSha256Hex (strBytes sec)
               (strBytes (urlencode (([("symbol", JVal.str (pyUpper s)),
                 ("side", JVal.str (pyUpper sd)), ("type", JVal.str (pyUpper tp)),
                 ("quantity", dget kvs "quantity"),
                 ("quoteOrderQty", dget kvs "quoteOrderQty"),
                 ("price", dget kvs "price"),
                 ("timeInForce", dget kvs "timeInForce"),
                 ("recvWindow", dget kvs "recvWindow")].filter
                 (fun kv => !isNull kv.2)) ++
                 [("timestamp", JVal.num w.now)])))))]))),
         [("User-Agent", JVal.str "binance-mcp-server/1.0"),
          ("X-MBX-APIKEY", JVal.str k),
          ("Content-Type", JVal.str "application/x-www-form-urlencoded")]⟩ := by
      simp only [BinanceClient.buildRequest, truthyJ]
      rw [hsign]
      simp [hkne, hpost]
    refine ⟨⟨pyUpper "POST",
         pyRstripSlash bs ++
           (if truthyJ (dgetD kvs "test" (.bool false)) then "/api/v3/order/test"
            else "/api/v3/order"),
         some (strBytes (urlencode
           (([("symbol", JVal.str (pyUpper s)), ("side", JVal.str (pyUpper sd)),
             ("type", JVal.str (pyUpper tp)), ("quantity", dget kvs "quantity"),
             ("quoteOrderQty", dget kvs "quoteOrderQty"),
             ("price", dget kvs "price"), ("timeInForce", dget kvs "timeInForce"),
             ("recvWindow", dget kvs "recvWindow")].filter
             (fun kv => !isNull kv.2)) ++
            [("timestamp", JVal.num w.now),
             ("signature", JVal.str (hmacSha256Hex (strBytes sec)
               (strBytes (urlencode (([("symbol", JVal.str (pyUpper s)),
                 ("side", JVal.str (pyUpper sd)), ("type", JVal.str (pyUpper tp)),
                 ("quantity", dget kvs "quantity"),
                 ("quoteOrderQty", dget kvs "quoteOrderQty"),
                 ("price", dget kvs "price"),
                 ("timeInForce", dget kvs "timeInForce"),
                 ("recvWindow", dget kvs "recvWindow")].filter
                 (fun kv => !isNull kv.2)) ++
                 [("timestamp", JVal.num w.now)])))))]))),
         [("User-Agent", JVal.str "binance-mcp-server/1.0"),
          ("X-MBX-APIKEY", JVal.str k),
          ("Content-Type", JVal.str "application/x-www-form-urlencoded")]⟩,
      (([("symbol", JVal.str (pyUpper s)), ("side", JVal.str (pyUpper sd)),
         ("type", JVal.str (pyUpper tp)), ("quantity", dget kvs "quantity"),
         ("quoteOrderQty", dget kvs "quoteOrderQty"),
         ("price", dget kvs "price"), ("timeInForce", dget kvs "timeInForce"),
         ("recvWindow", dget kvs "recvWindow")].filter
         (fun kv => !isNull kv.2)) ++
        [("timestamp", JVal.num w.now),
         ("signature", JVal.str (hmacSha256Hex (strBytes sec)
           (strBytes (urlencode (([("symbol", JVal.str (pyUpper s)),
             ("side", JVal.str (pyUpper sd)), ("type", JVal.str (pyUpper tp)),
             ("quantity", dget kvs "quantity"),
             ("quoteOrderQty", dget kvs "quoteOrderQty"),
             ("price", dget kvs "price"),
             ("timeInForce", dget kvs "timeInForce"),
             ("recvWindow", dget kvs "recvWindow")].filter
             (fun kv => !isNull kv.2)) ++
             [("timestamp", JVal.num w.now)])))))]),
      ?_, rfl, rfl, rfl, rfl, ?_, ?_, ?_⟩
    · rw [hhm]
      simp only [BinanceClient.place_order, jvalUpper, BinanceClient.request]
      rw [hbuild]
    · exact List.mem_append_left _
        (List.mem_filter.mpr ⟨by simp, by simp [isNull]⟩)
    · exact List.mem_append_left _
        (List.mem_filter.mpr ⟨by simp, by simp [isNull]⟩)
    · exact List.mem_append_left _
        (List.mem_filter.mpr ⟨by simp, by simp [isNull]⟩)

/-- Witness for the amended C6: with credentials in the environment, a
request missing side and type gets the missing-parameter error, and a full
test order routes to the dry-run endpoint with upper-cased fields. -/
theorem place_order_validation_and_routing_witness :
    handle_method worldCreds (.str "place_order")
      (.obj [("symbol", JVal.str "BTCUSDT")]) =
      .error (.valueError "symbol, side, and type are required for place_order")
    ∧ (∃ req sp,
        handle_method worldCreds (.str "place_order")
          (.obj [("symbol", JVal.str "btcusdt"), ("side", JVal.str "buy"),
            ("type", JVal.str "market"), ("test", JVal.bool true)]) =
          interpNet worldCreds req
        ∧ req.method = pyUpper "POST"
        ∧ req.url = pyRstripSlash "https://api.binance.com" ++
            (if truthyJ (dgetD [("symbol", JVal.str "btcusdt"),
              ("side", JVal.str "buy"), ("type", JVal.str "market"),
              ("test", JVal.bool true)] "test" (.bool false))
             then "/api/v3/order/test" else "/api/v3/order")
        ∧ req.data = some (strBytes (urlencode sp))
        ∧ req.headers = [("User-Agent", JVal.str "binance-mcp-server/1.0"),
            ("X-MBX-APIKEY", JVal.str "test-key"),
            ("Content-Type", JVal.str "application/x-www-form-urlencoded")]
        ∧ ("symbol", JVal.str (pyUpper "btcusdt")) ∈ sp
        ∧ ("side", JVal.str (pyUpper "buy")) ∈ sp
        ∧ ("type", JVal.str (pyUpper "market")) ∈ sp) :=
  ⟨place_order_validation_and_routing.1 worldCreds
     [("symbol", JVal.str "BTCUSDT")] "https://api.binance.com" rfl rfl rfl rfl,
   place_order_validation_and_routing.2 worldCreds
     [("symbol", JVal.str "btcusdt"), ("side", JVal.str "buy"),
      ("type", JVal.str "market"), ("test", JVal.bool true)]
     "https://api.binance.com" "test-key" "test-secret" "btcusdt" "buy"
     "market" rfl (by decide) rfl (by decide) rfl rfl (by decide) rfl
     (by decide) rfl (by decide)⟩

end BinanceMCP
